import Mathlib

/-!
Verification development for the "Momentum" productivity application:
a relational schema with row-level-security (RLS) policies (SQL migration),
and React view components (TodayView, GoalsView, MilestonesView, AddItemModal)
that issue scoped queries against it.

The embedding models:
- the five tables (profiles, tasks, time_blocks, goals, milestones) as lists
  of row structures, with UUIDs, dates, times and timestamps as `Nat`;
- RLS policies (`USING (auth.uid() = user_id)`, `WITH CHECK ...`) as filters
  on reads and guards on writes;
- the client fetch functions (`fetchTasks`, `fetchTimeBlocks`, `fetchGoals`,
  the milestones `fetchData`) as filter-then-sort over the store, where the
  backend `.order(...)` is embedded as insertion sort by the requested key;
- the optimistic toggle handlers (`toggleTask`, `toggleGoal`,
  `toggleMilestone`) as functions from local list state to local list state
  together with the list of store requests they issue;
- the AddItemModal insert handlers as payload constructions followed by an
  RLS-checked insert that fills schema defaults for omitted columns;
- the `ON DELETE CASCADE` foreign key from milestones to goals as part of
  goal deletion;
- the `handle_new_user` trigger as a profile append on account creation.
-/

/-- A row of `public.tasks`: id, owner, title, completed flag (default FALSE),
date, optional alarm time, creation timestamp. -/
structure TaskRow where
  id : Nat
  user_id : Nat
  title : String
  completed : Bool
  task_date : Nat
  alarm_time : Option Nat
  created_at : Nat
deriving Repr, DecidableEq

/-- A row of `public.time_blocks`: id, owner, title, date, start and end
times, optional description, creation timestamp. -/
structure TimeBlockRow where
  id : Nat
  user_id : Nat
  title : String
  block_date : Nat
  start_time : Nat
  end_time : Nat
  description : Option String
  created_at : Nat
deriving Repr, DecidableEq

/-- `goal_type TEXT CHECK (goal_type IN ('yearly', 'monthly'))`. -/
inductive GoalType where
  | yearly
  | monthly
deriving Repr, DecidableEq

/-- A row of `public.goals`. -/
structure GoalRow where
  id : Nat
  user_id : Nat
  title : String
  description : Option String
  goal_type : GoalType
  target_date : Option Nat
  completed : Bool
  created_at : Nat
deriving Repr, DecidableEq

/-- A row of `public.milestones`; `goal_id` is a nullable foreign key to
`public.goals(id)` with `ON DELETE CASCADE`. -/
structure MilestoneRow where
  id : Nat
  user_id : Nat
  goal_id : Option Nat
  title : String
  description : Option String
  completed : Bool
  target_date : Option Nat
  created_at : Nat
deriving Repr, DecidableEq

/-- A row of `public.profiles` (id references `auth.users`). -/
structure ProfileRow where
  id : Nat
  full_name : String
deriving Repr, DecidableEq

/-- A row of `auth.users`: the identity plus the optional
`raw_user_meta_data->>'full_name'` field read by the signup trigger. -/
structure AuthUser where
  id : Nat
  raw_full_name : Option String
deriving Repr, DecidableEq

/-- The database state: one list of rows per table. -/
structure Store where
  users : List AuthUser
  profiles : List ProfileRow
  tasks : List TaskRow
  time_blocks : List TimeBlockRow
  goals : List GoalRow
  milestones : List MilestoneRow
deriving Repr, DecidableEq

/-- The RLS SELECT policy `USING (auth.uid() = user_id)`: the store only
returns rows whose owner is the authenticated identity. -/
def rlsFilter {ρ : Type} (authUid : Nat) (owner : ρ → Nat) (rows : List ρ) : List ρ :=
  rows.filter (fun r => owner r == authUid)

/-- The backend `.order(key, ascending: true)`, embedded as insertion sort. -/
def sortByKeyAsc {α : Type} (key : α → Nat) (l : List α) : List α :=
  List.insertionSort (fun a b => key a ≤ key b) l

/-- The backend `.order(key, ascending: false)`, embedded as insertion sort. -/
def sortByKeyDesc {α : Type} (key : α → Nat) (l : List α) : List α :=
  List.insertionSort (fun a b => key b ≤ key a) l

/-- TodayView `fetchTasks`: select from tasks through RLS, with client
filters `.eq('user_id', user.id)` and `.eq('task_date', today)`, ordered by
`created_at` ascending. -/
def fetchTasks (s : Store) (uid today : Nat) : List TaskRow :=
  sortByKeyAsc (fun t => t.created_at)
    ((rlsFilter uid (fun t => t.user_id) s.tasks).filter
      (fun t => t.user_id == uid && t.task_date == today))

/-- TodayView `fetchTimeBlocks`: select from time_blocks through RLS, with
client filters `.eq('user_id', user.id)` and `.eq('block_date', today)`,
ordered by `start_time` ascending. -/
def fetchTimeBlocks (s : Store) (uid today : Nat) : List TimeBlockRow :=
  sortByKeyAsc (fun b => b.start_time)
    ((rlsFilter uid (fun b => b.user_id) s.time_blocks).filter
      (fun b => b.user_id == uid && b.block_date == today))

/-- GoalsView `fetchGoals`: select from goals through RLS, with client filter
`.eq('user_id', user.id)`, ordered by `created_at` descending. -/
def fetchGoals (s : Store) (uid : Nat) : List GoalRow :=
  sortByKeyDesc (fun g => g.created_at)
    ((rlsFilter uid (fun g => g.user_id) s.goals).filter
      (fun g => g.user_id == uid))

/-- MilestonesView `fetchData` (milestones part): select from milestones
through RLS, with client filter `.eq('user_id', user.id)`, ordered by
`created_at` descending. -/
def fetchMilestones (s : Store) (uid : Nat) : List MilestoneRow :=
  sortByKeyDesc (fun m => m.created_at)
    ((rlsFilter uid (fun m => m.user_id) s.milestones).filter
      (fun m => m.user_id == uid))

/-- Restriction of the store to the rows owned by one identity: used to state
that other identities' rows have no influence on what that identity reads. -/
def restrictToOwner (x : Nat) (s : Store) : Store :=
  { s with
    tasks := s.tasks.filter (fun t => t.user_id == x)
    time_blocks := s.time_blocks.filter (fun b => b.user_id == x)
    goals := s.goals.filter (fun g => g.user_id == x)
    milestones := s.milestones.filter (fun m => m.user_id == x) }

/-- The table a store request targets. -/
inductive Table where
  | tasks
  | time_blocks
  | goals
  | milestones
deriving Repr, DecidableEq

/-- A request the client issues against the store: either an update of one
row's completed flag (`.update({completed}).eq('id', rowId)`) or a select
(re-fetch). -/
inductive StoreRequest where
  | updateCompleted (t : Table) (rowId : Nat) (value : Bool)
  | selectQuery (t : Table)
deriving Repr, DecidableEq

/-- Whether a request is a select (a re-fetch). -/
def StoreRequest.isSelect : StoreRequest → Bool
  | .selectQuery _ => true
  | .updateCompleted _ _ _ => false

/-- The sound effect a toggle plays: `sounds.complete()` when turning a flag
on, `sounds.toggle()` when turning it off. -/
inductive SoundKind where
  | complete
  | toggle
deriving Repr, DecidableEq

/-- The observable outcome of a toggle handler: the view's local list after
the handler (and its error branch, if taken) has run, the sound played, and
the store requests issued on this path. -/
structure ToggleOutcome (ρ : Type) where
  localState : List ρ
  soundPlayed : SoundKind
  requests : List StoreRequest
deriving Repr

/-- `setTasks(prev => prev.map(t => t.id === taskId ? {...t, completed: v} : t))`. -/
def applyTaskCompleted (taskId : Nat) (v : Bool) (l : List TaskRow) : List TaskRow :=
  l.map (fun t => if t.id = taskId then { t with completed := v } else t)

/-- `setGoals(prev => prev.map(g => g.id === goalId ? {...g, completed: v} : g))`. -/
def applyGoalCompleted (goalId : Nat) (v : Bool) (l : List GoalRow) : List GoalRow :=
  l.map (fun g => if g.id = goalId then { g with completed := v } else g)

/-- `setMilestones(prev => prev.map(m => m.id === milestoneId ? {...m, completed: v} : m))`. -/
def applyMilestoneCompleted (milestoneId : Nat) (v : Bool) (l : List MilestoneRow) :
    List MilestoneRow :=
  l.map (fun m => if m.id = milestoneId then { m with completed := v } else m)

/-- TodayView `toggleTask`: negate the status, optimistically update local
state, play a sound, issue the update; on failure revert the record to
`currentStatus`. `updateFails` models whether the awaited store update
returned an error. -/
def toggleTask (tasks : List TaskRow) (taskId : Nat) (currentStatus : Bool)
    (updateFails : Bool) : ToggleOutcome TaskRow :=
  let newStatus := !currentStatus
  let optimistic := applyTaskCompleted taskId newStatus tasks
  let sound := if newStatus then SoundKind.complete else SoundKind.toggle
  let req := StoreRequest.updateCompleted Table.tasks taskId newStatus
  if updateFails then
    { localState := applyTaskCompleted taskId currentStatus optimistic
      soundPlayed := sound
      requests := [req] }
  else
    { localState := optimistic
      soundPlayed := sound
      requests := [req] }

/-- GoalsView `toggleGoal`, same shape as `toggleTask` over the goals list. -/
def toggleGoal (goals : List GoalRow) (goalId : Nat) (currentStatus : Bool)
    (updateFails : Bool) : ToggleOutcome GoalRow :=
  let newStatus := !currentStatus
  let optimistic := applyGoalCompleted goalId newStatus goals
  let sound := if newStatus then SoundKind.complete else SoundKind.toggle
  let req := StoreRequest.updateCompleted Table.goals goalId newStatus
  if updateFails then
    { localState := applyGoalCompleted goalId currentStatus optimistic
      soundPlayed := sound
      requests := [req] }
  else
    { localState := optimistic
      soundPlayed := sound
      requests := [req] }

/-- MilestonesView `toggleMilestone`, same shape over the milestones list. -/
def toggleMilestone (milestones : List MilestoneRow) (milestoneId : Nat)
    (currentStatus : Bool) (updateFails : Bool) : ToggleOutcome MilestoneRow :=
  let newStatus := !currentStatus
  let optimistic := applyMilestoneCompleted milestoneId newStatus milestones
  let sound := if newStatus then SoundKind.complete else SoundKind.toggle
  let req := StoreRequest.updateCompleted Table.milestones milestoneId newStatus
  if updateFails then
    { localState := applyMilestoneCompleted milestoneId currentStatus optimistic
      soundPlayed := sound
      requests := [req] }
  else
    { localState := optimistic
      soundPlayed := sound
      requests := [req] }

/-- The field map of `supabase.from('tasks').insert({...})` as built by
AddItemModal `handleAddTask`: user id, title, task date, optional alarm. The
payload carries no completed flag and no timestamps; those are filled by
schema defaults on insert. -/
structure TaskPayload where
  user_id : Nat
  title : String
  task_date : Nat
  alarm_time : Option Nat
deriving Repr, DecidableEq

/-- The field map of the AddItemModal time-block insert. -/
structure TimeBlockPayload where
  user_id : Nat
  title : String
  description : Option String
  block_date : Nat
  start_time : Nat
  end_time : Nat
deriving Repr, DecidableEq

/-- The field map of the AddItemModal goal insert. -/
structure GoalPayload where
  user_id : Nat
  title : String
  description : Option String
  goal_type : GoalType
  target_date : Option Nat
deriving Repr, DecidableEq

/-- The field map of the AddItemModal milestone insert: note it has no
`goal_id` field — `handleAddMilestone` omits that column entirely. -/
structure MilestonePayload where
  user_id : Nat
  title : String
  description : Option String
  target_date : Option Nat
deriving Repr, DecidableEq

/-- AddItemModal `handleAddTask`: builds the insert payload from the form,
with `task_date: today` where `today` is the current day at submission. -/
def handleAddTask (uid today : Nat) (title : String) (alarm : Option Nat) :
    TaskPayload :=
  { user_id := uid, title := title, task_date := today, alarm_time := alarm }

/-- AddItemModal `handleAddTimeBlock`: builds the insert payload from the
form, with `block_date: today`. -/
def handleAddTimeBlock (uid today : Nat) (title : String)
    (description : Option String) (startTime endTime : Nat) : TimeBlockPayload :=
  { user_id := uid, title := title, description := description
    block_date := today, start_time := startTime, end_time := endTime }

/-- AddItemModal `handleAddMilestone`: builds the insert payload from the
form; the payload has no goal reference field. -/
def handleAddMilestone (uid : Nat) (title : String)
    (description : Option String) (targetDate : Option Nat) : MilestonePayload :=
  { user_id := uid, title := title, description := description
    target_date := targetDate }

/-- The stored row a task insert materializes: the payload's fields plus the
schema defaults `completed = FALSE` and a server-assigned id and creation
timestamp. -/
def insertedTaskRow (p : TaskPayload) (newId ts : Nat) : TaskRow :=
  { id := newId, user_id := p.user_id, title := p.title,
    completed := false, task_date := p.task_date,
    alarm_time := p.alarm_time, created_at := ts }

/-- Insert into `public.tasks`: the RLS `WITH CHECK (auth.uid() = user_id)`
policy rejects a payload whose owner is not the authenticated identity;
otherwise the materialized row is appended. -/
def insertTask (s : Store) (authUid : Nat) (p : TaskPayload) (newId ts : Nat) :
    Option Store :=
  if p.user_id == authUid then
    some { s with tasks := s.tasks ++ [insertedTaskRow p newId ts] }
  else
    none

/-- The stored row a time-block insert materializes: the payload's fields
plus a server-assigned id and creation timestamp. -/
def insertedTimeBlockRow (p : TimeBlockPayload) (newId ts : Nat) : TimeBlockRow :=
  { id := newId, user_id := p.user_id, title := p.title,
    block_date := p.block_date, start_time := p.start_time,
    end_time := p.end_time, description := p.description, created_at := ts }

/-- Insert into `public.time_blocks`, with the RLS WITH CHECK guard. -/
def insertTimeBlock (s : Store) (authUid : Nat) (p : TimeBlockPayload)
    (newId ts : Nat) : Option Store :=
  if p.user_id == authUid then
    some { s with time_blocks := s.time_blocks ++ [insertedTimeBlockRow p newId ts] }
  else
    none

/-- The stored row a milestone insert materializes. The payload omits
`goal_id` and `completed`, so the stored row takes the column defaults:
`goal_id = NULL`, `completed = FALSE`. -/
def insertedMilestoneRow (p : MilestonePayload) (newId ts : Nat) : MilestoneRow :=
  { id := newId, user_id := p.user_id, goal_id := none, title := p.title,
    description := p.description, completed := false,
    target_date := p.target_date, created_at := ts }

/-- Insert into `public.milestones`, with the RLS WITH CHECK guard. -/
def insertMilestone (s : Store) (authUid : Nat) (p : MilestonePayload)
    (newId ts : Nat) : Option Store :=
  if p.user_id == authUid then
    some { s with milestones := s.milestones ++ [insertedMilestoneRow p newId ts] }
  else
    none

/-- Deletion of a goal row through RLS (`USING (auth.uid() = user_id)`); the
`ON DELETE CASCADE` foreign key removes every milestone whose `goal_id`
references a deleted goal row. -/
def deleteGoal (s : Store) (authUid goalId : Nat) : Store :=
  let deleted := s.goals.filter (fun g => g.id == goalId && g.user_id == authUid)
  { s with
    goals := s.goals.filter (fun g => !(g.id == goalId && g.user_id == authUid))
    milestones := s.milestones.filter
      (fun m => !(deleted.any (fun g => m.goal_id == some g.id))) }

/-- The `handle_new_user` trigger body: insert one profile row with the new
user's id and `COALESCE(raw_user_meta_data->>'full_name', '')`. -/
def handle_new_user (profiles : List ProfileRow) (u : AuthUser) : List ProfileRow :=
  profiles ++ [{ id := u.id, full_name := u.raw_full_name.getD "" }]

/-- Account creation: the row is inserted into `auth.users` and the
`on_auth_user_created` AFTER INSERT trigger runs `handle_new_user` once for
that row. -/
def signUp (s : Store) (u : AuthUser) : Store :=
  { s with
    users := s.users ++ [u]
    profiles := handle_new_user s.profiles u }

/-- Membership is preserved by the ascending sort. -/
theorem mem_sortByKeyAsc {α : Type} (key : α → Nat) (l : List α) (a : α) :
    a ∈ sortByKeyAsc key l ↔ a ∈ l :=
  List.mem_insertionSort _

/-- Membership is preserved by the descending sort. -/
theorem mem_sortByKeyDesc {α : Type} (key : α → Nat) (l : List α) (a : α) :
    a ∈ sortByKeyDesc key l ↔ a ∈ l :=
  List.mem_insertionSort _

/-- The ascending sort is sorted by its key. -/
theorem sorted_sortByKeyAsc {α : Type} (key : α → Nat) (l : List α) :
    List.Sorted (fun a b => key a ≤ key b) (sortByKeyAsc key l) := by
  letI : IsTotal α (fun a b => key a ≤ key b) := ⟨fun a b => Nat.le_total _ _⟩
  letI : IsTrans α (fun a b => key a ≤ key b) :=
    ⟨fun _ _ _ hab hbc => Nat.le_trans hab hbc⟩
  exact List.sorted_insertionSort _ l

/-- The descending sort is sorted by the reversed key order. -/
theorem sorted_sortByKeyDesc {α : Type} (key : α → Nat) (l : List α) :
    List.Sorted (fun a b => key b ≤ key a) (sortByKeyDesc key l) := by
  letI : IsTotal α (fun a b => key b ≤ key a) := ⟨fun a b => Nat.le_total _ _⟩
  letI : IsTrans α (fun a b => key b ≤ key a) :=
    ⟨fun _ _ _ hab hbc => Nat.le_trans hbc hab⟩
  exact List.sorted_insertionSort _ l

/-- Filtering twice by the same predicate equals filtering once. -/
theorem filter_idem {α : Type} (p : α → Bool) (l : List α) :
    (l.filter p).filter p = l.filter p := by
  induction l with
  | nil => rfl
  | cons a t ih =>
    by_cases h : p a = true
    · simp [List.filter_cons, h, ih]
    · simp [List.filter_cons, h, ih]

/-- Two successive completed-flag writes to the same task id collapse to the
second write. -/
theorem applyTaskCompleted_twice (tid : Nat) (a b : Bool) (l : List TaskRow) :
    applyTaskCompleted tid b (applyTaskCompleted tid a l) = applyTaskCompleted tid b l := by
  induction l with
  | nil => rfl
  | cons t ts ih =>
    unfold applyTaskCompleted at *
    simp only [List.map_cons, List.cons.injEq]
    refine ⟨?_, ih⟩
    by_cases h : t.id = tid
    · simp [h]
    · simp [h]

/-- Writing a task's completed flag to the value it already has is the
identity on the list. -/
theorem applyTaskCompleted_self (tid : Nat) (b : Bool) (l : List TaskRow)
    (h : ∀ t ∈ l, t.id = tid → t.completed = b) :
    applyTaskCompleted tid b l = l := by
  induction l with
  | nil => rfl
  | cons t ts ih =>
    unfold applyTaskCompleted at *
    simp only [List.map_cons, List.cons.injEq]
    constructor
    · by_cases hid : t.id = tid
      · have hc : t.completed = b := h t (List.mem_cons_self t ts) hid
        rw [if_pos hid, ← hc]
      · exact if_neg hid
    · exact ih (fun x hx hxid => h x (List.mem_cons_of_mem _ hx) hxid)

/-- Two successive completed-flag writes to the same goal id collapse to the
second write. -/
theorem applyGoalCompleted_twice (gid : Nat) (a b : Bool) (l : List GoalRow) :
    applyGoalCompleted gid b (applyGoalCompleted gid a l) = applyGoalCompleted gid b l := by
  induction l with
  | nil => rfl
  | cons g gs ih =>
    unfold applyGoalCompleted at *
    simp only [List.map_cons, List.cons.injEq]
    refine ⟨?_, ih⟩
    by_cases h : g.id = gid
    · simp [h]
    · simp [h]

/-- Writing a goal's completed flag to the value it already has is the
identity on the list. -/
theorem applyGoalCompleted_self (gid : Nat) (b : Bool) (l : List GoalRow)
    (h : ∀ g ∈ l, g.id = gid → g.completed = b) :
    applyGoalCompleted gid b l = l := by
  induction l with
  | nil => rfl
  | cons g gs ih =>
    unfold applyGoalCompleted at *
    simp only [List.map_cons, List.cons.injEq]
    constructor
    · by_cases hid : g.id = gid
      · have hc : g.completed = b := h g (List.mem_cons_self g gs) hid
        rw [if_pos hid, ← hc]
      · exact if_neg hid
    · exact ih (fun x hx hxid => h x (List.mem_cons_of_mem _ hx) hxid)

/-- Two successive completed-flag writes to the same milestone id collapse to
the second write. -/
theorem applyMilestoneCompleted_twice (mid : Nat) (a b : Bool) (l : List MilestoneRow) :
    applyMilestoneCompleted mid b (applyMilestoneCompleted mid a l) =
      applyMilestoneCompleted mid b l := by
  induction l with
  | nil => rfl
  | cons m ms ih =>
    unfold applyMilestoneCompleted at *
    simp only [List.map_cons, List.cons.injEq]
    refine ⟨?_, ih⟩
    by_cases h : m.id = mid
    · simp [h]
    · simp [h]

/-- Writing a milestone's completed flag to the value it already has is the
identity on the list. -/
theorem applyMilestoneCompleted_self (mid : Nat) (b : Bool) (l : List MilestoneRow)
    (h : ∀ m ∈ l, m.id = mid → m.completed = b) :
    applyMilestoneCompleted mid b l = l := by
  induction l with
  | nil => rfl
  | cons m ms ih =>
    unfold applyMilestoneCompleted at *
    simp only [List.map_cons, List.cons.injEq]
    constructor
    · by_cases hid : m.id = mid
      · have hc : m.completed = b := h m (List.mem_cons_self m ms) hid
        rw [if_pos hid, ← hc]
      · exact if_neg hid
    · exact ih (fun x hx hxid => h x (List.mem_cons_of_mem _ hx) hxid)

/-- A concrete task row owned by identity 1 dated day 5. -/
def sampleTask : TaskRow :=
  { id := 1, user_id := 1, title := "review proposal", completed := false,
    task_date := 5, alarm_time := none, created_at := 10 }

/-- A concrete goal row owned by identity 1. -/
def sampleGoal : GoalRow :=
  { id := 1, user_id := 1, title := "learn spanish", description := none,
    goal_type := GoalType.yearly, target_date := none, completed := false,
    created_at := 11 }

/-- A concrete milestone row referencing `sampleGoal`. -/
def sampleMilestone : MilestoneRow :=
  { id := 1, user_id := 1, goal_id := some 1, title := "module one",
    description := none, completed := false, target_date := none,
    created_at := 12 }

/-- A concrete milestone row with no goal reference. -/
def sampleMilestoneNull : MilestoneRow :=
  { id := 2, user_id := 1, goal_id := none, title := "free milestone",
    description := none, completed := false, target_date := none,
    created_at := 13 }

/-- A concrete store holding the sample rows, all owned by identity 1. -/
def sampleStore : Store :=
  { users := [{ id := 1, raw_full_name := some "Ada" }],
    profiles := [{ id := 1, full_name := "Ada" }],
    tasks := [sampleTask],
    time_blocks := [],
    goals := [sampleGoal],
    milestones := [sampleMilestone, sampleMilestoneNull] }

/-- C1: every row of any of the four entity tables returned by a scoped read
issued for identity `x` is owned by `x`, and the result of each scoped read
is unchanged when every row owned by a different identity is removed from
the store — rows owned by other identities have no influence on what `x`
observes. -/
theorem fetch_owner_isolation (s : Store) (x today : Nat) :
    (∀ t ∈ fetchTasks s x today, t.user_id = x) ∧
    (∀ b ∈ fetchTimeBlocks s x today, b.user_id = x) ∧
    (∀ g ∈ fetchGoals s x, g.user_id = x) ∧
    (∀ m ∈ fetchMilestones s x, m.user_id = x) ∧
    fetchTasks (restrictToOwner x s) x today = fetchTasks s x today ∧
    fetchTimeBlocks (restrictToOwner x s) x today = fetchTimeBlocks s x today ∧
    fetchGoals (restrictToOwner x s) x = fetchGoals s x ∧
    fetchMilestones (restrictToOwner x s) x = fetchMilestones s x := by
  refine ⟨?_, ?_, ?_, ?_, ?_, ?_, ?_, ?_⟩
  · intro t ht
    rw [fetchTasks, mem_sortByKeyAsc] at ht
    have := (List.mem_filter.mp ht).2
    simp only [Bool.and_eq_true, beq_iff_eq] at this
    exact this.1
  · intro b hb
    rw [fetchTimeBlocks, mem_sortByKeyAsc] at hb
    have := (List.mem_filter.mp hb).2
    simp only [Bool.and_eq_true, beq_iff_eq] at this
    exact this.1
  · intro g hg
    rw [fetchGoals, mem_sortByKeyDesc] at hg
    have := (List.mem_filter.mp hg).2
    simp only [beq_iff_eq] at this
    exact this
  · intro m hm
    rw [fetchMilestones, mem_sortByKeyDesc] at hm
    have := (List.mem_filter.mp hm).2
    simp only [beq_iff_eq] at this
    exact this
  · show sortByKeyAsc _ ((rlsFilter x _ ((restrictToOwner x s).tasks)).filter _) = _
    rw [fetchTasks]
    simp only [restrictToOwner, rlsFilter]
    rw [filter_idem]
  · show sortByKeyAsc _ ((rlsFilter x _ ((restrictToOwner x s).time_blocks)).filter _) = _
    rw [fetchTimeBlocks]
    simp only [restrictToOwner, rlsFilter]
    rw [filter_idem]
  · show sortByKeyDesc _ ((rlsFilter x _ ((restrictToOwner x s).goals)).filter _) = _
    rw [fetchGoals]
    simp only [restrictToOwner, rlsFilter]
    rw [filter_idem]
  · show sortByKeyDesc _ ((rlsFilter x _ ((restrictToOwner x s).milestones)).filter _) = _
    rw [fetchMilestones]
    simp only [restrictToOwner, rlsFilter]
    rw [filter_idem]

/-- Witness for C1 at a concrete store: the sample task is returned to
identity 1 and is owned by identity 1. -/
theorem fetch_owner_isolation_witness :
    sampleTask ∈ fetchTasks sampleStore 1 5 ∧ sampleTask.user_id = 1 :=
  ⟨by decide, (fetch_owner_isolation sampleStore 1 5).1 sampleTask (by decide)⟩

/-- C5: every successful load places a sorted sequence in local state —
tasks ascending by creation time, time blocks ascending by start time,
goals and milestones descending by creation time. -/
theorem fetch_results_ordered (s : Store) (uid today : Nat) :
    List.Sorted (fun a b : TaskRow => a.created_at ≤ b.created_at)
      (fetchTasks s uid today) ∧
    List.Sorted (fun a b : TimeBlockRow => a.start_time ≤ b.start_time)
      (fetchTimeBlocks s uid today) ∧
    List.Sorted (fun a b : GoalRow => b.created_at ≤ a.created_at)
      (fetchGoals s uid) ∧
    List.Sorted (fun a b : MilestoneRow => b.created_at ≤ a.created_at)
      (fetchMilestones s uid) :=
  ⟨sorted_sortByKeyAsc _ _, sorted_sortByKeyAsc _ _,
   sorted_sortByKeyDesc _ _, sorted_sortByKeyDesc _ _⟩

/-- C2: when the store update of a toggle fails, the failure handler leaves
the local list exactly as it was before the toggle attempt, and the toggle
path issues no select (no re-fetch) — for tasks, goals, and milestones
alike. `tb`, `gb`, `mb` are the toggled records' current completed values,
as read from local state at the call sites. -/
theorem toggle_failure_reverts
    (tasks : List TaskRow) (goals : List GoalRow) (milestones : List MilestoneRow)
    (tid gid mid : Nat) (tb gb mb : Bool)
    (ht : ∀ t ∈ tasks, t.id = tid → t.completed = tb)
    (hg : ∀ g ∈ goals, g.id = gid → g.completed = gb)
    (hm : ∀ m ∈ milestones, m.id = mid → m.completed = mb) :
    (toggleTask tasks tid tb true).localState = tasks ∧
    (∀ r ∈ (toggleTask tasks tid tb true).requests, r.isSelect = false) ∧
    (toggleGoal goals gid gb true).localState = goals ∧
    (∀ r ∈ (toggleGoal goals gid gb true).requests, r.isSelect = false) ∧
    (toggleMilestone milestones mid mb true).localState = milestones ∧
    (∀ r ∈ (toggleMilestone milestones mid mb true).requests, r.isSelect = false) := by
  refine ⟨?_, ?_, ?_, ?_, ?_, ?_⟩
  · show applyTaskCompleted tid tb (applyTaskCompleted tid (!tb) tasks) = tasks
    rw [applyTaskCompleted_twice]
    exact applyTaskCompleted_self tid tb tasks ht
  · intro r hr
    have hr' : r ∈ [StoreRequest.updateCompleted Table.tasks tid (!tb)] := hr
    rw [List.mem_singleton.mp hr']
    rfl
  · show applyGoalCompleted gid gb (applyGoalCompleted gid (!gb) goals) = goals
    rw [applyGoalCompleted_twice]
    exact applyGoalCompleted_self gid gb goals hg
  · intro r hr
    have hr' : r ∈ [StoreRequest.updateCompleted Table.goals gid (!gb)] := hr
    rw [List.mem_singleton.mp hr']
    rfl
  · show applyMilestoneCompleted mid mb (applyMilestoneCompleted mid (!mb) milestones) =
      milestones
    rw [applyMilestoneCompleted_twice]
    exact applyMilestoneCompleted_self mid mb milestones hm
  · intro r hr
    have hr' : r ∈ [StoreRequest.updateCompleted Table.milestones mid (!mb)] := hr
    rw [List.mem_singleton.mp hr']
    rfl

/-- Witness for C2 at concrete lists: a failed toggle of the sample task,
goal and milestone leaves each one-element local list unchanged. -/
theorem toggle_failure_reverts_witness :
    (toggleTask [sampleTask] 1 false true).localState = [sampleTask] ∧
    (toggleGoal [sampleGoal] 1 false true).localState = [sampleGoal] ∧
    (toggleMilestone [sampleMilestone] 1 false true).localState = [sampleMilestone] := by
  have h := toggle_failure_reverts [sampleTask] [sampleGoal] [sampleMilestone]
    1 1 1 false false false (by decide) (by decide) (by decide)
  exact ⟨h.1, h.2.2.1, h.2.2.2.2.1⟩

/-- C3: toggling a record twice in sequence, awaiting each store round-trip
and with both updates succeeding, returns the local list to its original
value — the second call reads the record's updated completed value `!b`
from local state. Holds for tasks, goals, and milestones. -/
theorem toggle_twice_involution
    (tasks : List TaskRow) (goals : List GoalRow) (milestones : List MilestoneRow)
    (tid gid mid : Nat) (tb gb mb : Bool)
    (ht : ∀ t ∈ tasks, t.id = tid → t.completed = tb)
    (hg : ∀ g ∈ goals, g.id = gid → g.completed = gb)
    (hm : ∀ m ∈ milestones, m.id = mid → m.completed = mb) :
    (toggleTask (toggleTask tasks tid tb false).localState tid (!tb) false).localState =
      tasks ∧
    (toggleGoal (toggleGoal goals gid gb false).localState gid (!gb) false).localState =
      goals ∧
    (toggleMilestone (toggleMilestone milestones mid mb false).localState mid (!mb)
      false).localState = milestones := by
  refine ⟨?_, ?_, ?_⟩
  · show applyTaskCompleted tid (!!tb) (applyTaskCompleted tid (!tb) tasks) = tasks
    rw [applyTaskCompleted_twice, Bool.not_not]
    exact applyTaskCompleted_self tid tb tasks ht
  · show applyGoalCompleted gid (!!gb) (applyGoalCompleted gid (!gb) goals) = goals
    rw [applyGoalCompleted_twice, Bool.not_not]
    exact applyGoalCompleted_self gid gb goals hg
  · show applyMilestoneCompleted mid (!!mb)
      (applyMilestoneCompleted mid (!mb) milestones) = milestones
    rw [applyMilestoneCompleted_twice, Bool.not_not]
    exact applyMilestoneCompleted_self mid mb milestones hm

/-- Witness for C3 at concrete lists: toggling the sample task, goal and
milestone twice (both round-trips succeeding) restores each local list. -/
theorem toggle_twice_involution_witness :
    (toggleTask (toggleTask [sampleTask] 1 false false).localState 1 true
      false).localState = [sampleTask] ∧
    (toggleGoal (toggleGoal [sampleGoal] 1 false false).localState 1 true
      false).localState = [sampleGoal] ∧
    (toggleMilestone (toggleMilestone [sampleMilestone] 1 false false).localState 1 true
      false).localState = [sampleMilestone] :=
  toggle_twice_involution [sampleTask] [sampleGoal] [sampleMilestone]
    1 1 1 false false false (by decide) (by decide) (by decide)

/-- C4: when the store holds a goal with id `gid` owned by `uid`, deleting it
removes exactly the milestones whose `goal_id` referenced `gid`; every
milestone with a null reference or a reference to a different goal stays. -/
theorem deleteGoal_cascades_exactly (s : Store) (uid gid : Nat)
    (hg : ∃ gr ∈ s.goals, gr.id = gid ∧ gr.user_id = uid) :
    ∀ m : MilestoneRow,
      m ∈ (deleteGoal s uid gid).milestones ↔
        m ∈ s.milestones ∧ m.goal_id ≠ some gid := by
  obtain ⟨gr, hgr, hid, huid⟩ := hg
  intro m
  show m ∈ s.milestones.filter
    (fun m => !((s.goals.filter (fun g => g.id == gid && g.user_id == uid)).any
      (fun g => m.goal_id == some g.id))) ↔ _
  rw [List.mem_filter]
  have hany : ((s.goals.filter (fun g => g.id == gid && g.user_id == uid)).any
      (fun g => m.goal_id == some g.id)) = true ↔ m.goal_id = some gid := by
    constructor
    · intro h
      obtain ⟨g, hgm, hbeq⟩ := List.any_eq_true.mp h
      obtain ⟨-, hq⟩ := List.mem_filter.mp hgm
      have hq' := (Bool.and_eq_true _ _).mp hq
      have hgid : g.id = gid := by
        have := hq'.1
        simpa using this
      have hge : m.goal_id = some g.id := by
        simpa using hbeq
      rw [hge, hgid]
    · intro h
      apply List.any_eq_true.mpr
      refine ⟨gr, List.mem_filter.mpr ⟨hgr, ?_⟩, ?_⟩
      · simp [hid, huid]
      · simp [h, hid]
  constructor
  · rintro ⟨hmem, hpred⟩
    refine ⟨hmem, ?_⟩
    intro hcontra
    rw [Bool.not_eq_true'] at hpred
    rw [hany.mpr hcontra] at hpred
    exact Bool.noConfusion hpred
  · rintro ⟨hmem, hne⟩
    refine ⟨hmem, ?_⟩
    rw [Bool.not_eq_true']
    cases hcase : ((s.goals.filter (fun g => g.id == gid && g.user_id == uid)).any
        (fun g => m.goal_id == some g.id)) with
    | true => exact absurd (hany.mp hcase) hne
    | false => rfl

/-- Witness for C4 at the sample store: deleting goal 1 removes the milestone
referencing it while the milestone with a null reference survives. -/
theorem deleteGoal_cascades_exactly_witness :
    (sampleMilestone ∈ (deleteGoal sampleStore 1 1).milestones ↔
      sampleMilestone ∈ sampleStore.milestones ∧
        sampleMilestone.goal_id ≠ some 1) ∧
    (sampleMilestoneNull ∈ (deleteGoal sampleStore 1 1).milestones ↔
      sampleMilestoneNull ∈ sampleStore.milestones ∧
        sampleMilestoneNull.goal_id ≠ some 1) :=
  ⟨deleteGoal_cascades_exactly sampleStore 1 1 ⟨sampleGoal, by decide, rfl, rfl⟩
      sampleMilestone,
   deleteGoal_cascades_exactly sampleStore 1 1 ⟨sampleGoal, by decide, rfl, rfl⟩
      sampleMilestoneNull⟩

/-- C6: inserting a task payload owned by `uid` succeeds, and the stored row
appears in the today's-tasks read exactly when its `task_date` is today;
moreover every task the today's read returns is dated today. -/
theorem today_task_visibility (s : Store) (uid today newId ts : Nat)
    (p : TaskPayload) (hp : p.user_id = uid) :
    ∃ s', insertTask s uid p newId ts = some s' ∧
      (p.task_date = today → insertedTaskRow p newId ts ∈ fetchTasks s' uid today) ∧
      (p.task_date ≠ today → insertedTaskRow p newId ts ∉ fetchTasks s' uid today) ∧
      (∀ t ∈ fetchTasks s' uid today, t.task_date = today) := by
  refine ⟨{ s with tasks := s.tasks ++ [insertedTaskRow p newId ts] }, ?_, ?_, ?_, ?_⟩
  · simp [insertTask, hp]
  · intro hdate
    rw [fetchTasks, mem_sortByKeyAsc]
    apply List.mem_filter.mpr
    constructor
    · apply List.mem_filter.mpr
      refine ⟨List.mem_append_right _ (List.mem_singleton_self _), ?_⟩
      simp [insertedTaskRow, hp]
    · simp [insertedTaskRow, hp, hdate]
  · intro hne hmem
    rw [fetchTasks, mem_sortByKeyAsc] at hmem
    have hq := (List.mem_filter.mp hmem).2
    simp only [Bool.and_eq_true, beq_iff_eq, insertedTaskRow] at hq
    exact hne hq.2
  · intro t htm
    rw [fetchTasks, mem_sortByKeyAsc] at htm
    have hq := (List.mem_filter.mp htm).2
    simp only [Bool.and_eq_true, beq_iff_eq] at hq
    exact hq.2

/-- The payload AddItemModal builds for a sample task submission on day 5 by
identity 1. -/
def sampleTaskPayload : TaskPayload := handleAddTask 1 5 "plan day" none

/-- Witness for C6: the sample payload (dated day 5) inserts successfully and
the materialized row is returned by the today's read for day 5. -/
theorem today_task_visibility_witness :
    ∃ s', insertTask sampleStore 1 sampleTaskPayload 99 20 = some s' ∧
      (sampleTaskPayload.task_date = 5 →
        insertedTaskRow sampleTaskPayload 99 20 ∈ fetchTasks s' 1 5) ∧
      (sampleTaskPayload.task_date ≠ 5 →
        insertedTaskRow sampleTaskPayload 99 20 ∉ fetchTasks s' 1 5) ∧
      (∀ t ∈ fetchTasks s' 1 5, t.task_date = 5) :=
  today_task_visibility sampleStore 1 5 99 20 sampleTaskPayload rfl

/-- C8: account creation appends the new identity and, via the
`handle_new_user` trigger, exactly one profile row keyed by that identity,
whose display name is the supplied full name or the empty string when none
is supplied. -/
theorem signup_creates_one_profile (s : Store) (u : AuthUser)
    (hfresh : ∀ prof ∈ s.profiles, prof.id ≠ u.id) :
    (signUp s u).profiles.filter (fun prof => prof.id == u.id) =
      [{ id := u.id, full_name := u.raw_full_name.getD "" }] ∧
    (∀ name, u.raw_full_name = some name →
      ({ id := u.id, full_name := name } : ProfileRow) ∈ (signUp s u).profiles) ∧
    (u.raw_full_name = none →
      ({ id := u.id, full_name := "" } : ProfileRow) ∈ (signUp s u).profiles) := by
  refine ⟨?_, ?_, ?_⟩
  · show (s.profiles ++
      [({ id := u.id, full_name := u.raw_full_name.getD "" } : ProfileRow)]).filter _ = _
    rw [List.filter_append]
    have h1 : s.profiles.filter (fun prof => prof.id == u.id) = [] := by
      rw [List.filter_eq_nil_iff]
      intro prof hprof
      simp [hfresh prof hprof]
    rw [h1]
    simp
  · intro name hname
    show _ ∈ s.profiles ++ [({ id := u.id, full_name := u.raw_full_name.getD "" } : ProfileRow)]
    rw [hname]
    exact List.mem_append_right _ (List.mem_singleton_self _)
  · intro hnone
    show _ ∈ s.profiles ++ [({ id := u.id, full_name := u.raw_full_name.getD "" } : ProfileRow)]
    rw [hnone]
    exact List.mem_append_right _ (List.mem_singleton_self _)

/-- Witness for C8: creating identity 7 with no supplied full name on the
sample store yields exactly one profile row with id 7 and empty name. -/
theorem signup_creates_one_profile_witness :
    (signUp sampleStore { id := 7, raw_full_name := none }).profiles.filter
        (fun prof => prof.id == 7) = [{ id := 7, full_name := "" }] :=
  (signup_creates_one_profile sampleStore { id := 7, raw_full_name := none }
    (by decide)).1

/-- C9: every milestone insert issued through the Add-Item modal omits the
goal reference (the payload type has no `goal_id` field), so the stored row
always has a null goal reference. -/
theorem milestone_ui_insert_null_goal (s : Store) (uid newId ts : Nat)
    (title : String) (description : Option String) (targetDate : Option Nat) :
    ∃ row : MilestoneRow,
      insertMilestone s uid (handleAddMilestone uid title description targetDate)
        newId ts = some { s with milestones := s.milestones ++ [row] } ∧
      row.goal_id = none := by
  refine ⟨insertedMilestoneRow (handleAddMilestone uid title description targetDate)
    newId ts, ?_, rfl⟩
  simp [insertMilestone, handleAddMilestone]

/-- C10: both AddItemModal date-carrying inserts set their date field to the
submission-time current day, in the payload and in the stored row. -/
theorem ui_inserts_use_today (uid today newId ts : Nat) (title : String)
    (alarm : Option Nat) (description : Option String) (startTime endTime : Nat) :
    (handleAddTask uid today title alarm).task_date = today ∧
    (handleAddTimeBlock uid today title description startTime endTime).block_date =
      today ∧
    (insertedTaskRow (handleAddTask uid today title alarm) newId ts).task_date =
      today ∧
    (insertedTimeBlockRow
      (handleAddTimeBlock uid today title description startTime endTime)
      newId ts).block_date = today :=
  ⟨rfl, rfl, rfl, rfl⟩
